import Mathlib

/-!
Verification development for `monitor_trades.py`, a polling log monitor
(class `TradeMonitor`).  The embedding models:

* log / window text as `List Nat` of Unicode code points (`strN` converts a
  Lean string literal);
* the regex fragment actually used by the source (literal text, `.*` which
  does not cross newlines, `\w+`, and the character class `[ABC]`) as a
  small fuel-based backtracking matcher (`matchF`); fuel
  `s.length + toks.length + 1` is sufficient because every recursive call
  strictly decreases `toks.length + s.length`;
* `re.findall` counting as `reCount` (non-overlapping leftmost scan) and
  `re.search` as `reSearch`;
* `re.IGNORECASE` by mapping ASCII upper-case letters to lower case on both
  the pattern literals and the searched content (`lowerN`), and `\w` by its
  ASCII range (all source patterns and log fixtures are ASCII apart from
  emoji, which `\w` never matches);
* `read_new_logs` over an explicit environment (`LogRead`) that distinguishes
  a readable file from an open/read failure (the `except` branch);
* `write_report` at two granularities: `write_report_file` models the
  create-or-append decision on the report file (`RLine.header` stands for
  the three-line header block, `RLine.scanSection n` for one rendered
  "Scan #n" section), while `renderTradingActivity` models the literal lines
  of the Trading Activity subsection;
* one iteration of the `while True` body of `TradeMonitor.run` as `runCycle`,
  which also emits an event trace (`Ev`) recording the order of read,
  fatal scan, aggregation, rendering, termination and sleep.

Deliberately not modelled (no claim depends on them): the `box_grades`
counter inside `analyze_box_range`, the `analyze_errors` extractor, the
wall-clock timestamps, and the text of the printed status lines.
-/

/-- ASCII-lower-case a code point, as `re.IGNORECASE` folds the patterns and
content of `check_for_errors` (all of which are ASCII). -/
def lowerN (c : Nat) : Nat := if 65 ≤ c ∧ c ≤ 90 then c + 32 else c

/-- Word-character test, the ASCII range of `\w`: letters, digits and underscore. -/
def isWordChar (c : Nat) : Bool :=
  (48 ≤ c && c ≤ 57) || (65 ≤ c && c ≤ 90) || (97 ≤ c && c ≤ 122) || c == 95

/-- Code points of a Lean string literal; used to transcribe the pattern strings of the source and to build concrete log windows. -/
def strN (s : String) : List Nat := s.data.map Char.toNat

/-- Tokens of the regex fragment used by `monitor_trades.py`: literal text,
`.*` (no newline), `\w+`, and a one-character class such as `[ABC]`.
`wordStar` is the internal continuation state of `\w+` after its first
character. -/
inductive Tok where
  | lit (l : List Nat)
  | dotStar
  | wordPlus
  | wordStar
  | oneOf (cs : List Nat)
deriving DecidableEq

/-- Backtracking matcher: given fuel, a token list and a suffix of the
window, return the remainder after a match anchored at the current position
(greedy `.*` and `\w+`, matching the Python `re` module).  Fuel only bounds the
recursion depth; `matchTop` always supplies enough. -/
def matchF : Nat → List Tok → List Nat → Option (List Nat)
  | 0, _, _ => none
  | _ + 1, [], s => some s
  | f + 1, Tok.lit l :: rest, s =>
      if l.isPrefixOf s then matchF f rest (s.drop l.length) else none
  | f + 1, Tok.oneOf cs :: rest, s =>
      match s with
      | c :: t => if cs.contains c then matchF f rest t else none
      | [] => none
  | f + 1, Tok.dotStar :: rest, s =>
      match s with
      | c :: t =>
        if c = 10 then matchF f rest (c :: t)
        else
          match matchF f (Tok.dotStar :: rest) t with
          | some r => some r
          | none => matchF f rest (c :: t)
      | [] => matchF f rest []
  | f + 1, Tok.wordPlus :: rest, s =>
      match s with
      | c :: t => if isWordChar c then matchF f (Tok.wordStar :: rest) t else none
      | [] => none
  | f + 1, Tok.wordStar :: rest, s =>
      match s with
      | c :: t =>
        if isWordChar c then
          match matchF f (Tok.wordStar :: rest) t with
          | some r => some r
          | none => matchF f rest (c :: t)
        else matchF f rest (c :: t)
      | [] => matchF f rest []

/-- Matcher with sufficient fuel for the given inputs. -/
def matchTop (toks : List Tok) (s : List Nat) : Option (List Nat) :=
  matchF (s.length + toks.length + 1) toks s

/-- Model of `re.search`: does the pattern match at some position of the window? -/
def reSearch (toks : List Tok) : List Nat → Bool
  | [] => (matchTop toks []).isSome
  | s@(_ :: t) => (matchTop toks s).isSome || reSearch toks t

/-- Model of `len(re.findall(...))`: fuelled non-overlapping leftmost count; after a
match the scan resumes at the end of the match (or one position further for an
empty match, as Python does). -/
def reCountF : Nat → List Tok → List Nat → Nat
  | 0, _, _ => 0
  | _ + 1, toks, [] => if (matchTop toks []).isSome then 1 else 0
  | f + 1, toks, c :: t =>
      match matchTop toks (c :: t) with
      | some rest =>
          if rest.length < t.length + 1 then 1 + reCountF f toks rest
          else 1 + reCountF f toks t
      | none => reCountF f toks t

/-- Model of `len(re.findall(...))` with sufficient fuel. -/
def reCount (toks : List Tok) (s : List Nat) : Nat := reCountF (s.length + 1) toks s

/-- Specification-side count: greedy leftmost non-overlapping occurrences of
a literal (nonempty) trigger text in a window, defined directly. -/
def cnoF : Nat → List Nat → List Nat → Nat
  | 0, _, _ => 0
  | _ + 1, _, [] => 0
  | f + 1, pat, c :: t =>
      if pat.isPrefixOf (c :: t) then 1 + cnoF f pat ((c :: t).drop pat.length)
      else cnoF f pat t

/-- Number of non-overlapping occurrences of `pat` in `s`. -/
def countNonOverlapping (pat s : List Nat) : Nat := cnoF (s.length + 1) pat s

/-- Substring test on code-point lists. -/
def containsSub (needle : List Nat) : List Nat → Bool
  | [] => decide (needle = [])
  | c :: t => needle.isPrefixOf (c :: t) || containsSub needle t

/-! ## Fatal-condition detector (`TradeMonitor.check_for_errors`) -/

/-- One fatal pattern: its token form and the source regex text that
`check_for_errors` reports on a match. -/
structure FatalPat where
  toks : List Tok
  name : String
deriving DecidableEq

/-- The fixed ordered `error_patterns` list of `check_for_errors`. -/
def fatalPatterns : List FatalPat :=
  [ ⟨[Tok.lit (strN "ECONNREFUSED")], "ECONNREFUSED"⟩,
    ⟨[Tok.lit (strN "Cannot connect to"), Tok.dotStar, Tok.lit (strN "database")],
      "Cannot connect to.*database"⟩,
    ⟨[Tok.lit (strN "UnhandledPromiseRejectionWarning")], "UnhandledPromiseRejectionWarning"⟩,
    ⟨[Tok.lit (strN "TypeError:")], "TypeError:"⟩,
    ⟨[Tok.lit (strN "ReferenceError:")], "ReferenceError:"⟩,
    ⟨[Tok.lit (strN "Fatal error")], "Fatal error"⟩,
    ⟨[Tok.lit (strN "SIGTERM")], "SIGTERM"⟩,
    ⟨[Tok.lit (strN "SIGKILL")], "SIGKILL"⟩ ]

/-- Case-fold the literal tokens of a pattern (model of `re.IGNORECASE`). -/
def lowerTok : Tok → Tok
  | Tok.lit l => Tok.lit (l.map lowerN)
  | t => t

/-- Model of `re.search(pattern, content, re.IGNORECASE)` for one fatal pattern. -/
def patMatches (p : FatalPat) (content : List Nat) : Bool :=
  reSearch (p.toks.map lowerTok) (content.map lowerN)

/-- The pattern loop of `check_for_errors`: return on the first match. -/
def check_go (content : List Nat) : List FatalPat → Bool × Option String
  | [] => (false, none)
  | p :: rest => if patMatches p content then (true, some p.name) else check_go content rest

/-- Model of `TradeMonitor.check_for_errors`. -/
def check_for_errors (content : List Nat) : Bool × Option String :=
  check_go content fatalPatterns

/-! ## Pattern extractors (`analyze_*`) -/

/-- Analyzed/detected counters plus the sparse failure map of one
decision funnel; the failure map is an insertion-ordered association list,
as a Python dict built by the filter loop. -/
structure FilterOutcome where
  analyzed : Nat
  detected : Nat
  failed_filters : List (String × Nat)
deriving DecidableEq

/-- The funding-extremes funnel also counts the extreme-zScore bypass. -/
structure FundingOutcome where
  analyzed : Nat
  detected : Nat
  extreme_zscore_bypass : Nat
  failed_filters : List (String × Nat)
deriving DecidableEq

/-- Stats dict of `analyze_cycle_rider`. -/
structure CycleRiderStats where
  total_scans : Nat
  distribution : FilterOutcome
  squeeze : FilterOutcome
  signals_generated : Nat
deriving DecidableEq

/-- Stats dict of `analyze_hour_swing`. -/
structure HourSwingStats where
  total_scans : Nat
  mtf_alignment : FilterOutcome
  relative_strength : FilterOutcome
  funding_extremes : FundingOutcome
  signals_generated : Nat
deriving DecidableEq

/-- The `entry_analysis` sub-dict of `analyze_box_range`. -/
structure EntryAnalysis where
  analyzed : Nat
  generated : Nat
deriving DecidableEq

/-- Stats dict of `analyze_box_range` (with `box_grades` omitted, see header). -/
structure BoxRangeStats where
  total_scans : Nat
  boxes_detected : Nat
  entry_analysis : EntryAnalysis
  failed_filters : List (String × Nat)
  signals_generated : Nat
deriving DecidableEq

/-- Stats dict of `analyze_orders`: the five lifecycle counts. -/
structure OrderStats where
  orders_placed : Nat
  orders_filled : Nat
  orders_cancelled : Nat
  positions_opened : Nat
  positions_closed : Nat
deriving DecidableEq

/-- A failure-filter table: `(trigger literal, human-readable label)` pairs,
in source order.  The escaped regexes of the source (`\(`, `\)`, `\.`) are
written as the literal text they match. -/
def distributionFilters : List (String × String) :=
  [ ("Not in distribution (price not near POC)", "Not near POC"),
    ("Volume spike too strong", "Volume spike"),
    ("CVD slope too negative", "CVD negative"),
    ("No accumulation pattern", "No accumulation") ]

/-- Squeeze-momentum failure filters. -/
def squeezeFilters : List (String × String) :=
  [ ("Not in squeeze", "Not in squeeze"),
    ("No momentum divergence", "No divergence"),
    ("Histogram not bullish", "Histogram not bullish") ]

/-- MTF-alignment failure filters. -/
def mtfFilters : List (String × String) :=
  [ ("1H analysis: valid=false", "1H trend invalid"),
    ("15M analysis: aligned=false", "15M not aligned"),
    ("strength=0.00", "Trend too weak") ]

/-- Relative-strength failure filters. -/
def rsFilters : List (String × String) :=
  [ ("BTC bearish cross detected", "BTC bearish"),
    ("BTC bullish cross detected", "BTC bullish"),
    ("Altcoin weaker than BTC", "Weaker than BTC") ]

/-- Funding-extremes failure filters. -/
def feFilters : List (String × String) :=
  [ ("Market structure break: broken=false", "Structure not broken"),
    ("Momentum slowing: false", "Momentum not slowing"),
    ("isExtreme=false", "Funding not extreme") ]

/-- Box-range failure filters. -/
def boxFilters : List (String × String) :=
  [ ("Failed ATR filter", "ATR out of range"),
    ("1H ADX too high", "ADX too high"),
    ("Failed upper timeframe filter", "Upper TF failed"),
    ("Box invalidated by price breakout", "Box breakout"),
    ("Symbol disabled", "Symbol disabled") ]

/-- The failure-filter loop shared by all strategies: for each pair count
the matches and record the label only when the count is positive. -/
def buildFailedFilters : List (String × String) → List Nat → List (String × Nat)
  | [], _ => []
  | (trig, name) :: rest, content =>
      let c := reCount [Tok.lit (strN trig)] content
      if c > 0 then (name, c) :: buildFailedFilters rest content
      else buildFailedFilters rest content

/-- Model of `TradeMonitor.analyze_cycle_rider`. -/
def analyze_cycle_rider (content : List Nat) : CycleRiderStats :=
  { total_scans := 0
    distribution :=
      { analyzed := reCount
          [Tok.lit (strN "[Distribution] "), Tok.wordPlus, Tok.lit (strN " Starting analysis")]
          content
        detected := reCount
          [Tok.lit (strN "[Distribution] "), Tok.wordPlus,
           Tok.lit (strN " 🎯 Distribution zone detected")] content
        failed_filters := buildFailedFilters distributionFilters content }
    squeeze :=
      { analyzed := reCount
          [Tok.lit (strN "[SqueezeMomentum] "), Tok.wordPlus, Tok.lit (strN " Starting analysis")]
          content
        detected := reCount
          [Tok.lit (strN "[SqueezeMomentum] "), Tok.wordPlus, Tok.lit (strN " ✅ Squeeze detected")]
          content
        failed_filters := buildFailedFilters squeezeFilters content }
    signals_generated := reCount
      [Tok.lit (strN "[CycleRider] "), Tok.wordPlus, Tok.lit (strN " 🚀 Cycle Rider signal")]
      content }

/-- Model of `TradeMonitor.analyze_hour_swing`. -/
def analyze_hour_swing (content : List Nat) : HourSwingStats :=
  { total_scans := 0
    mtf_alignment :=
      { analyzed := reCount
          [Tok.lit (strN "[MTF Alignment] "), Tok.wordPlus, Tok.lit (strN " Checking alignment")]
          content
        detected := reCount
          [Tok.lit (strN "[MTF Alignment] "), Tok.wordPlus, Tok.lit (strN " ✅"),
           Tok.dotStar, Tok.lit (strN "aligned")] content
        failed_filters := buildFailedFilters mtfFilters content }
    relative_strength :=
      { analyzed := reCount
          [Tok.lit (strN "[RelativeStrength] "), Tok.wordPlus,
           Tok.lit (strN " Checking relative strength")] content
        detected := reCount
          [Tok.lit (strN "[RelativeStrength] "), Tok.wordPlus,
           Tok.lit (strN " ✅ Relative strength confirmed")] content
        failed_filters := buildFailedFilters rsFilters content }
    funding_extremes :=
      { analyzed := reCount
          [Tok.lit (strN "[FundingExtremes] "), Tok.wordPlus, Tok.lit (strN " Starting analysis")]
          content
        detected := reCount
          [Tok.lit (strN "[FundingExtremes] "), Tok.wordPlus,
           Tok.lit (strN " 💥 Extreme funding detected")] content
        extreme_zscore_bypass := reCount
          [Tok.lit (strN "[FundingExtremes] "), Tok.wordPlus,
           Tok.lit (strN " 🔥 EXTREME zScore detected")] content
        failed_filters := buildFailedFilters feFilters content }
    signals_generated := reCount
      [Tok.lit (strN "[HourSwing] "), Tok.wordPlus, Tok.lit (strN " 🎯"),
       Tok.dotStar, Tok.lit (strN "signal generated")] content }

/-- Model of `TradeMonitor.analyze_box_range` (with `box_grades` omitted, see header). -/
def analyze_box_range (content : List Nat) : BoxRangeStats :=
  { total_scans := 0
    boxes_detected := reCount
      [Tok.lit (strN "[BoxDetector] "), Tok.wordPlus,
       Tok.lit (strN " ✅ Box detected! Grade="), Tok.oneOf (strN "ABC")] content
    entry_analysis :=
      { analyzed := reCount
          [Tok.lit (strN "[BoxRangeSignal] "), Tok.wordPlus,
           Tok.lit (strN " Starting box range analysis")] content
        generated := reCount
          [Tok.lit (strN "[BoxRangeSignal] "), Tok.wordPlus,
           Tok.lit (strN " 🎯 Box Range signal generated")] content }
    failed_filters := buildFailedFilters boxFilters content
    signals_generated := reCount
      [Tok.lit (strN "[BoxRangeSignal] "), Tok.wordPlus,
       Tok.lit (strN " 🎯 Box Range signal generated")] content }

/-- Model of `TradeMonitor.analyze_orders`: the five lifecycle patterns, each
`<event text>.*(\w+USDT)`. -/
def analyze_orders (content : List Nat) : OrderStats :=
  { orders_placed := reCount
      [Tok.lit (strN "Order placed"), Tok.dotStar, Tok.wordPlus, Tok.lit (strN "USDT")] content
    orders_filled := reCount
      [Tok.lit (strN "Order filled"), Tok.dotStar, Tok.wordPlus, Tok.lit (strN "USDT")] content
    orders_cancelled := reCount
      [Tok.lit (strN "Order cancelled"), Tok.dotStar, Tok.wordPlus, Tok.lit (strN "USDT")] content
    positions_opened := reCount
      [Tok.lit (strN "Position opened"), Tok.dotStar, Tok.wordPlus, Tok.lit (strN "USDT")] content
    positions_closed := reCount
      [Tok.lit (strN "Position closed"), Tok.dotStar, Tok.wordPlus, Tok.lit (strN "USDT")] content }

/-- Model of `TradeMonitor.analyze_logs`: the aggregator invokes every extractor once
on the same window (timestamp and `analyze_errors` omitted, see header). -/
def analyze_logs (content : List Nat) :
    CycleRiderStats × HourSwingStats × BoxRangeStats × OrderStats :=
  (analyze_cycle_rider content, analyze_hour_swing content,
   analyze_box_range content, analyze_orders content)

/-! ## Report renderer (`TradeMonitor.write_report`) -/

/-- Decimal digits of a count, as the Python string formatting renders it
(fuelled, most-significant digit first). -/
def natDigitsF : Nat → Nat → List Nat
  | 0, _ => []
  | f + 1, n => if n < 10 then [48 + n] else natDigitsF f (n / 10) ++ [48 + n % 10]

/-- Decimal rendering of a count as code points. -/
def natDigits (n : Nat) : List Nat := natDigitsF (n + 1) n

/-- The Trading Activity subsection of `write_report`, line by line: the
source writes the section title, a blank line, four count lines (note:
`orders_cancelled` is computed by `analyze_orders` but never written), and
a closing blank line. -/
def renderTradingActivity (o : OrderStats) : List (List Nat) :=
  [ strN "### 📊 Trading Activity", [],
    strN "- Orders Placed: " ++ natDigits o.orders_placed,
    strN "- Orders Filled: " ++ natDigits o.orders_filled,
    strN "- Positions Opened: " ++ natDigits o.positions_opened,
    strN "- Positions Closed: " ++ natDigits o.positions_closed, [] ]

/-- The line a cancelled count would occupy if it were rendered in the same
style as the other four counts. -/
def cancelledLine (k : Nat) : List Nat := strN "- Orders Cancelled: " ++ natDigits k

/-- Report-file content at the create-or-append granularity:
with `header` standing for the three-line header block written in write mode,
and `scanSection n` for the rendered section of scan number `n` appended in
append mode. -/
inductive RLine where
  | header
  | scanSection (n : Nat)
deriving DecidableEq

/-- How many header blocks a report file holds. -/
def countHeader : List RLine → Nat
  | [] => 0
  | RLine.header :: t => countHeader t + 1
  | RLine.scanSection _ :: t => countHeader t

/-- One successful `write_report` call: `iter` is `self.iteration`, `file`
the report artifact on disk (`none` = does not exist).  The header is
(re)written exactly when `iteration == 0 or not os.path.exists(...)`; the
write-mode open truncates, then the scan section is appended. -/
def write_report_file (iter : Nat) (file : Option (List RLine)) : List RLine :=
  (if iter = 0 ∨ file = none then [RLine.header] else file.getD []) ++
    [RLine.scanSection (iter + 1)]

/-- Model of `write_report` including its outer `try/except`: a failing write leaves
the artifact as it was and raises nothing (the error is printed locally). -/
def write_report_run (iter : Nat) (file : Option (List RLine)) (fails : Bool) :
    Option (List RLine) :=
  if fails then file else some (write_report_file iter file)

/-- Report artifact after `k + 1` successful cycles that each rendered,
starting from an arbitrary artifact `f0` and iteration 0, with no external
deletion: the loop passes `self.iteration = 0, 1, 2, ...` to successive
writes. -/
def reportIter (f0 : Option (List RLine)) : Nat → List RLine
  | 0 => write_report_file 0 f0
  | k + 1 => write_report_file (k + 1) (some (reportIter f0 k))

/-! ## Polling driver (`TradeMonitor.run`) -/

/-- Process-wide mutable state of `TradeMonitor`. -/
structure MonitorState where
  last_position : Nat
  iteration : Nat
deriving DecidableEq

/-- Environment of one `read_new_logs` call: the bytes of the log file, or a
failure raised while opening / seeking / reading (both failure points sit
before the `self.last_position = f.tell()` assignment). -/
inductive LogRead where
  | avail (file : List Nat)
  | openFail
  | readFail
deriving DecidableEq

/-- Model of `TradeMonitor.read_new_logs`: seek to the cursor, read to end-of-file,
set the cursor to `f.tell()` (which is `max pos length`, since a seek past
the end stays put), return the text; any exception yields `""` with the
cursor untouched. -/
def read_new_logs (pos : Nat) : LogRead → List Nat × Nat
  | LogRead.avail file => (file.drop pos, max pos file.length)
  | LogRead.openFail => ([], pos)
  | LogRead.readFail => ([], pos)

/-- Observable events of one cycle of the `while True` loop, in order:
read, fatal scan, statistics aggregation (`analyze_logs`), report
rendering (`write_report`), external process termination (the `pkill` call of `stop_server`), and the end-of-cycle sleep. -/
inductive Ev where
  | readL
  | scan
  | aggregate
  | render
  | terminate
  | sleep
deriving DecidableEq

/-- Whether the loop continues to the next cycle or breaks on a detected
fatal condition. -/
inductive LoopSig where
  | continueLoop
  | stopOnError
deriving DecidableEq

/-- Environment of one cycle: the log read outcome, whether the report
write raises, and the report artifact on disk. -/
structure CycleEnv where
  log : LogRead
  writeFails : Bool
  report : Option (List RLine)

/-- Result of one cycle: new state, new report artifact, event trace, and
the continuation signal of the loop. -/
structure CycleResult where
  state : MonitorState
  report : Option (List RLine)
  trace : List Ev
  sig : LoopSig
deriving DecidableEq

/-- One iteration of the body of `TradeMonitor.run`: read the new window;
if non-empty, scan for fatal patterns first — on a match call `stop_server`
once and break; otherwise aggregate, render (write errors swallowed), and
increment the iteration count; finally sleep and loop. -/
def runCycle (st : MonitorState) (env : CycleEnv) : CycleResult :=
  let r := read_new_logs st.last_position env.log
  let st1 : MonitorState := { st with last_position := r.2 }
  if r.1 = [] then
    { state := st1, report := env.report, trace := [Ev.readL, Ev.sleep],
      sig := LoopSig.continueLoop }
  else if (check_for_errors r.1).1 then
    { state := st1, report := env.report, trace := [Ev.readL, Ev.scan, Ev.terminate],
      sig := LoopSig.stopOnError }
  else
    { state := { st1 with iteration := st1.iteration + 1 },
      report := write_report_run st1.iteration env.report env.writeFails,
      trace := [Ev.readL, Ev.scan, Ev.aggregate, Ev.render, Ev.sleep],
      sig := LoopSig.continueLoop }

/-! ## Cursor reader: claims C3, C8, C9 -/

/-- C3.  The cursor is monotonically non-decreasing across every
`read_new_logs` call, including failed and empty reads; and on a successful
read with the cursor within the (append-only) file, the returned window has
exactly the new bytes, the cursor advances by exactly that many bytes, and
ends at the new end offset of the file. -/
theorem cursor_monotonic_spec :
    (∀ (pos : Nat) (env : LogRead), pos ≤ (read_new_logs pos env).2) ∧
    (∀ (pos : Nat) (file : List Nat), pos ≤ file.length →
      (read_new_logs pos (LogRead.avail file)).1.length = file.length - pos ∧
      (read_new_logs pos (LogRead.avail file)).2
        = pos + (read_new_logs pos (LogRead.avail file)).1.length ∧
      (read_new_logs pos (LogRead.avail file)).2 = file.length) := by
  constructor
  · intro pos env
    cases env with
    | avail file => exact Nat.le_max_left pos file.length
    | openFail => simp [read_new_logs]
    | readFail => simp [read_new_logs]
  · intro pos file h
    simp only [read_new_logs, List.length_drop]
    rw [Nat.max_eq_right h]
    exact ⟨trivial, by omega, rfl⟩

/-- Witness for C3 at a concrete cursor and file. -/
theorem cursor_monotonic_witness :
    (1 : Nat) ≤ (strN "abc").length ∧
    (read_new_logs 1 (LogRead.avail (strN "abc"))).2 = (strN "abc").length :=
  ⟨by decide, (cursor_monotonic_spec.2 1 (strN "abc") (by decide)).2.2⟩

/-- C8.  Reading twice with no intervening growth returns the empty window
the second time and leaves the cursor unchanged, for every starting cursor. -/
theorem read_idempotent_spec : ∀ (pos : Nat) (file : List Nat),
    (read_new_logs (read_new_logs pos (LogRead.avail file)).2 (LogRead.avail file)).1 = [] ∧
    (read_new_logs (read_new_logs pos (LogRead.avail file)).2 (LogRead.avail file)).2
      = (read_new_logs pos (LogRead.avail file)).2 := by
  intro pos file
  simp only [read_new_logs]
  constructor
  · exact List.drop_eq_nil_of_le (Nat.le_max_right _ _)
  · omega

/-- C9.  A failure while opening or reading leaves the cursor exactly as it
was (the empty window is returned), and the cursor can only change on a
successful read. -/
theorem read_atomic_spec :
    (∀ pos : Nat, read_new_logs pos LogRead.openFail = ([], pos) ∧
      read_new_logs pos LogRead.readFail = ([], pos)) ∧
    (∀ (pos : Nat) (env : LogRead), (read_new_logs pos env).2 ≠ pos →
      ∃ file, env = LogRead.avail file) := by
  constructor
  · intro pos; exact ⟨rfl, rfl⟩
  · intro pos env h
    cases env with
    | avail file => exact ⟨file, rfl⟩
    | openFail => simp [read_new_logs] at h
    | readFail => simp [read_new_logs] at h

/-- Witness for C9 at a concrete cursor. -/
theorem read_atomic_witness :
    read_new_logs 5 LogRead.openFail = ([], 5) ∧
    ∃ file, LogRead.avail [97] = LogRead.avail file :=
  ⟨(read_atomic_spec.1 5).1, read_atomic_spec.2 0 (LogRead.avail [97]) (by decide)⟩

/-! ## Report renderer lifecycle: claim C4 -/

/-- Header blocks distribute over report concatenation. -/
theorem countHeader_append (a b : List RLine) :
    countHeader (a ++ b) = countHeader a + countHeader b := by
  induction a with
  | nil => simp [countHeader]
  | cons x t ih => cases x <;> simp [countHeader, ih, Nat.add_right_comm]

/-- C4.  The create-or-append decision is evaluated on every call: the
header block is written before the snapshot content exactly when it is the
first write of the process or the report artifact does not exist; a report
deleted between cycles is recreated with a fresh header at any iteration;
and across successive cycles with the artifact never deleted the header
appears exactly once in the cumulative output. -/
theorem report_header_spec :
    (∀ (iter : Nat) (file : Option (List RLine)), iter = 0 ∨ file = none →
      write_report_file iter file = [RLine.header, RLine.scanSection (iter + 1)]) ∧
    (∀ iter : Nat,
      write_report_file iter none = [RLine.header, RLine.scanSection (iter + 1)]) ∧
    (∀ (f0 : Option (List RLine)) (k : Nat), countHeader (reportIter f0 k) = 1) := by
  have h1 : ∀ (iter : Nat) (file : Option (List RLine)), iter = 0 ∨ file = none →
      write_report_file iter file = [RLine.header, RLine.scanSection (iter + 1)] := by
    intro iter file h
    unfold write_report_file
    rw [if_pos h]
    rfl
  refine ⟨h1, fun iter => h1 iter none (Or.inr rfl), ?_⟩
  intro f0 k
  induction k with
  | zero =>
    rw [reportIter, h1 0 f0 (Or.inl rfl)]
    rfl
  | succ k ih =>
    rw [reportIter]
    unfold write_report_file
    rw [if_neg (by simp)]
    rw [countHeader_append]
    simpa [countHeader] using ih

/-- Witness for C4: a deleted artifact is recreated with the header first,
at a non-initial iteration. -/
theorem report_header_witness :
    write_report_file 5 none = [RLine.header, RLine.scanSection 6] :=
  report_header_spec.1 5 none (Or.inr rfl)

/-! ## Polling driver: claims C1, C7, C10 -/

/-- C1.  On a non-empty window matched by the fatal detector, the cycle
performs no aggregation and no rendering, invokes the external
process-termination operation exactly once, skips the sleep and breaks the
loop; and in every cycle whose trace aggregates, the fatal scan event
occurs strictly before the aggregation event. -/
theorem fatal_cycle_spec :
    (∀ (st : MonitorState) (env : CycleEnv),
      (read_new_logs st.last_position env.log).1 ≠ [] →
      (check_for_errors (read_new_logs st.last_position env.log).1).1 = true →
        Ev.aggregate ∉ (runCycle st env).trace ∧
        Ev.render ∉ (runCycle st env).trace ∧
        (runCycle st env).trace.count Ev.terminate = 1 ∧
        (runCycle st env).sig = LoopSig.stopOnError ∧
        Ev.sleep ∉ (runCycle st env).trace) ∧
    (∀ (st : MonitorState) (env : CycleEnv), Ev.aggregate ∈ (runCycle st env).trace →
      ∃ i j : Nat, i < j ∧ (runCycle st env).trace.get? i = some Ev.scan ∧
        (runCycle st env).trace.get? j = some Ev.aggregate) := by
  constructor
  · intro st env h1 h2
    simp [runCycle, h1, h2]
  · intro st env h
    by_cases hc : (read_new_logs st.last_position env.log).1 = []
    · simp [runCycle, hc] at h
    · by_cases hf : (check_for_errors (read_new_logs st.last_position env.log).1).1
      · simp [runCycle, hc, hf] at h
      · refine ⟨1, 2, by omega, ?_, ?_⟩ <;> simp [runCycle, hc, hf]

/-- Witness for C1 on a window containing ECONNREFUSED. -/
theorem fatal_cycle_witness :
    (runCycle ⟨0, 0⟩ ⟨LogRead.avail (strN "ECONNREFUSED"), false, none⟩).trace.count
        Ev.terminate = 1 ∧
    (runCycle ⟨0, 0⟩ ⟨LogRead.avail (strN "ECONNREFUSED"), false, none⟩).sig
      = LoopSig.stopOnError := by
  have h := fatal_cycle_spec.1 ⟨0, 0⟩ ⟨LogRead.avail (strN "ECONNREFUSED"), false, none⟩
      (by decide) (by decide)
  exact ⟨h.2.2.1, h.2.2.2.1⟩

/-- C7.  Transient I/O failures are contained locally: a failed log read
yields the empty window with no shutdown, and a failed report write is
absorbed by the renderer while the loop continues without invoking
termination. -/
theorem io_contained_spec :
    (∀ pos : Nat, (read_new_logs pos LogRead.openFail).1 = [] ∧
      (read_new_logs pos LogRead.readFail).1 = []) ∧
    (∀ (st : MonitorState) (wf : Bool) (rep : Option (List RLine)),
      (runCycle st ⟨LogRead.openFail, wf, rep⟩).sig = LoopSig.continueLoop ∧
      Ev.terminate ∉ (runCycle st ⟨LogRead.openFail, wf, rep⟩).trace) ∧
    (∀ (st : MonitorState) (env : CycleEnv),
      (read_new_logs st.last_position env.log).1 ≠ [] →
      (check_for_errors (read_new_logs st.last_position env.log).1).1 = false →
      env.writeFails = true →
        (runCycle st env).sig = LoopSig.continueLoop ∧
        Ev.terminate ∉ (runCycle st env).trace ∧
        (runCycle st env).report = env.report) := by
  refine ⟨fun pos => ⟨rfl, rfl⟩, ?_, ?_⟩
  · intro st wf rep
    constructor <;> simp [runCycle, read_new_logs]
  · intro st env h1 h2 h3
    refine ⟨?_, ?_, ?_⟩ <;> simp [runCycle, h1, h2, write_report_run, h3]

/-- Witness for C7: a failing report write on a benign window leaves the
artifact untouched and the loop running. -/
theorem io_contained_witness :
    (runCycle ⟨0, 0⟩ ⟨LogRead.avail (strN "hello"), true, none⟩).sig
      = LoopSig.continueLoop ∧
    (runCycle ⟨0, 0⟩ ⟨LogRead.avail (strN "hello"), true, none⟩).report = none := by
  have h := io_contained_spec.2.2 ⟨0, 0⟩ ⟨LogRead.avail (strN "hello"), true, none⟩
      (by decide) (by decide) rfl
  exact ⟨h.1, h.2.2⟩

/-- C10.  The iteration count increments by exactly one on every non-empty
non-fatal cycle — also when the report write fails, since write errors are
swallowed inside the renderer — and is unchanged on empty-window cycles;
a successful render appends the section for scan number `iteration + 1`,
so rendered scan numbers advance with processed windows. -/
theorem iteration_count_spec : ∀ (st : MonitorState) (env : CycleEnv),
    ((read_new_logs st.last_position env.log).1 ≠ [] →
     (check_for_errors (read_new_logs st.last_position env.log).1).1 = false →
       (runCycle st env).state.iteration = st.iteration + 1 ∧
       (env.writeFails = true → (runCycle st env).report = env.report) ∧
       (env.writeFails = false → ∃ pre,
         (runCycle st env).report = some (pre ++ [RLine.scanSection (st.iteration + 1)]))) ∧
    ((read_new_logs st.last_position env.log).1 = [] →
       (runCycle st env).state.iteration = st.iteration) := by
  intro st env
  constructor
  · intro h1 h2
    refine ⟨by simp [runCycle, h1, h2], ?_, ?_⟩
    · intro h3; simp [runCycle, h1, h2, write_report_run, h3]
    · intro h3
      refine ⟨if st.iteration = 0 ∨ env.report = none then [RLine.header]
              else env.report.getD [], ?_⟩
      simp [runCycle, h1, h2, write_report_run, h3, write_report_file]
  · intro h1; simp [runCycle, h1]

/-- Witness for C10: the iteration advances despite a failing write. -/
theorem iteration_count_witness :
    (runCycle ⟨0, 3⟩ ⟨LogRead.avail (strN "hello"), true, none⟩).state.iteration = 4 ∧
    (runCycle ⟨0, 3⟩ ⟨LogRead.avail (strN "hello"), true, none⟩).report = none := by
  have h := (iteration_count_spec ⟨0, 3⟩ ⟨LogRead.avail (strN "hello"), true, none⟩).1
      (by decide) (by decide)
  exact ⟨h.1, h.2.1 rfl⟩

/-! ## Fatal detector: claim C2 -/

/-- ASCII case-folding is idempotent. -/
theorem lowerN_idem (c : Nat) : lowerN (lowerN c) = lowerN c := by
  simp only [lowerN]
  split_ifs <;> omega

/-- Case-folding a window twice equals folding it once. -/
theorem map_lowerN_idem (l : List Nat) : (l.map lowerN).map lowerN = l.map lowerN := by
  induction l with
  | nil => rfl
  | cons c t ih => simp [lowerN_idem, ih]

/-- Matching is insensitive to pre-folding the window. -/
theorem patMatches_lower (p : FatalPat) (content : List Nat) :
    patMatches p (content.map lowerN) = patMatches p content := by
  unfold patMatches
  rw [map_lowerN_idem]

/-- The first-match loop only depends on the per-pattern match results. -/
theorem check_go_congr (c1 c2 : List Nat)
    (h : ∀ p : FatalPat, patMatches p c1 = patMatches p c2) :
    ∀ l : List FatalPat, check_go c1 l = check_go c2 l := by
  intro l
  induction l with
  | nil => rfl
  | cons p rest ih => simp [check_go, h p, ih]

/-- The first-match loop either reports no match anywhere, or returns the
pattern at the least matching index. -/
theorem check_go_first (content : List Nat) :
    ∀ l : List FatalPat,
      ((∀ p ∈ l, patMatches p content = false) ∧ check_go content l = (false, none)) ∨
      (∃ k : Fin l.length, patMatches (l.get k) content = true ∧
        (∀ m : Fin l.length, m.val < k.val → patMatches (l.get m) content = false) ∧
        check_go content l = (true, some (l.get k).name)) := by
  intro l
  induction l with
  | nil => exact Or.inl ⟨by simp, rfl⟩
  | cons p rest ih =>
    by_cases hp : patMatches p content
    · right
      refine ⟨⟨0, by simp⟩, by simpa using hp, ?_, by simp [check_go, hp]⟩
      intro m hm
      exact absurd hm (by simp)
    · rcases ih with ⟨hall, heq⟩ | ⟨k, hk, hmin, heq⟩
      · left
        refine ⟨?_, by simp [check_go, hp, heq]⟩
        intro q hq
        rcases List.mem_cons.mp hq with rfl | hq'
        · simpa using hp
        · exact hall q hq'
      · right
        refine ⟨⟨k.val + 1, by simp [Nat.succ_lt_succ k.isLt]⟩, by simpa using hk, ?_, ?_⟩
        · intro m hm
          obtain ⟨mv, hmv⟩ := m
          cases mv with
          | zero => simpa using hp
          | succ mv' =>
            have hlt : mv' < k.val := by
              simpa using hm
            simpa using hmin ⟨mv', by simpa using hmv⟩ hlt
        · simp [check_go, hp, heq]

/-- C2.  The fatal scan is case-insensitive (folding the window changes
nothing), and whenever two patterns of the fixed list both match a window,
the result is the matching pattern of least list index — in particular one
no later than the earlier of the two — regardless of where the occurrences
sit in the window text. -/
theorem fatal_scan_spec :
    (∀ content : List Nat,
      check_for_errors (content.map lowerN) = check_for_errors content) ∧
    (∀ (content : List Nat) (i j : Fin fatalPatterns.length), i.val < j.val →
      patMatches (fatalPatterns.get i) content = true →
      patMatches (fatalPatterns.get j) content = true →
      ∃ k : Fin fatalPatterns.length, k.val ≤ i.val ∧
        patMatches (fatalPatterns.get k) content = true ∧
        (∀ m : Fin fatalPatterns.length, m.val < k.val →
          patMatches (fatalPatterns.get m) content = false) ∧
        check_for_errors content = (true, some (fatalPatterns.get k).name)) := by
  constructor
  · intro content
    unfold check_for_errors
    exact check_go_congr _ _ (fun p => patMatches_lower p content) fatalPatterns
  · intro content i j _ hi _
    rcases check_go_first content fatalPatterns with ⟨hall, _⟩ | ⟨k, hk, hmin, heq⟩
    · rw [hall (fatalPatterns.get i) (fatalPatterns.get_mem i.val i.isLt)] at hi
      exact absurd hi (by simp)
    · refine ⟨k, ?_, hk, hmin, heq⟩
      by_contra h
      push_neg at h
      rw [hmin i h] at hi
      exact absurd hi (by simp)

/-- Witness for C2: a window matching both the fourth pattern and the
first one reports the first. -/
theorem fatal_scan_witness :
    check_for_errors (strN "TypeError: ECONNREFUSED") = (true, some "ECONNREFUSED") := by
  have h := fatal_scan_spec.2 (strN "TypeError: ECONNREFUSED") ⟨0, by decide⟩ ⟨3, by decide⟩
      (by decide) (by decide) (by decide)
  obtain ⟨k, hk0, -, -, heq⟩ := h
  have h0 : k.val ≤ 0 := by simpa using hk0
  have hk : k = ⟨0, by decide⟩ := by
    apply Fin.ext
    simpa using h0
  rw [hk] at heq
  exact heq

/-! ## Failure filters: claim C5 -/

/-- Association-list lookup, the model of indexing the failure dict. -/
def lookupA : List (String × Nat) → String → Option Nat
  | [], _ => none
  | (k, v) :: t, key => if k = key then some v else lookupA t key

/-- Spec-side value of one failure-filter entry: the label carries the
occurrence count when it is positive and is absent otherwise. -/
def filterCount (trig : String) (content : List Nat) : Option Nat :=
  if countNonOverlapping (strN trig) content > 0
  then some (countNonOverlapping (strN trig) content) else none

/-- A nonempty literal is no prefix of the empty window. -/
theorem isPrefixOf_nil_false {pat : List Nat} (h : pat ≠ []) :
    pat.isPrefixOf ([] : List Nat) = false := by
  cases pat with
  | nil => exact absurd rfl h
  | cons a t => rfl

/-- On a single-literal pattern the matcher is exactly the prefix test. -/
theorem matchTop_lit (pat s : List Nat) :
    matchTop [Tok.lit pat] s
      = if pat.isPrefixOf s then some (s.drop pat.length) else none := by
  show matchF (s.length + 1 + 1) [Tok.lit pat] s = _
  rw [matchF]
  by_cases h : pat.isPrefixOf s
  · rw [if_pos h, if_pos h, matchF]
  · rw [if_neg h, if_neg h]

/-- Counting matches of a single-literal pattern is exactly the
non-overlapping occurrence count, at every fuel. -/
theorem reCountF_lit (pat : List Nat) (h : pat ≠ []) :
    ∀ (f : Nat) (s : List Nat), reCountF f [Tok.lit pat] s = cnoF f pat s := by
  intro f
  induction f with
  | zero => intro s; rfl
  | succ f ih =>
    intro s
    cases s with
    | nil =>
      rw [reCountF, cnoF, matchTop_lit, isPrefixOf_nil_false h]
      rfl
    | cons c t =>
      rw [reCountF, cnoF, matchTop_lit]
      by_cases hp : pat.isPrefixOf (c :: t)
      · rw [if_pos hp, if_pos hp]
        dsimp only
        have hlen : ((c :: t).drop pat.length).length < t.length + 1 := by
          rw [List.length_drop]
          have : 0 < pat.length := List.length_pos.mpr h
          simp only [List.length_cons]
          omega
        rw [if_pos hlen, ih]
      · rw [if_neg hp, if_neg hp]
        dsimp only
        exact ih t

/-- Wrapper form of the bridge between `re.findall` counting and the
direct occurrence count. -/
theorem reCount_lit (pat s : List Nat) (h : pat ≠ []) :
    reCount [Tok.lit pat] s = countNonOverlapping pat s :=
  reCountF_lit pat h (s.length + 1) s

/-- Labels that occur in no table entry are absent from the built map. -/
theorem lookupA_build_none (content : List Nat) :
    ∀ (table : List (String × String)) (name : String),
      (∀ pair ∈ table, pair.2 ≠ name) →
      lookupA (buildFailedFilters table content) name = none := by
  intro table
  induction table with
  | nil => intro name _; rfl
  | cons pr rest ih =>
    intro name hne
    obtain ⟨trig, nm⟩ := pr
    have h1 : nm ≠ name := hne (trig, nm) (List.mem_cons_self _ _)
    have h2 : ∀ pair ∈ rest, pair.2 ≠ name :=
      fun pair hp => hne pair (List.mem_cons_of_mem _ hp)
    by_cases hc : reCount [Tok.lit (strN trig)] content > 0
    · simp only [buildFailedFilters, if_pos hc, lookupA, if_neg h1]
      exact ih name h2
    · simp only [buildFailedFilters, if_neg hc]
      exact ih name h2

/-- Looking up the label of a table entry in the built failure map yields
its match count when positive and nothing otherwise. -/
theorem lookupA_build (content : List Nat) :
    ∀ (table : List (String × String)) (trig name : String),
      (trig, name) ∈ table →
      table.Pairwise (fun a b => a.2 ≠ b.2) →
      lookupA (buildFailedFilters table content) name =
        (if reCount [Tok.lit (strN trig)] content > 0
         then some (reCount [Tok.lit (strN trig)] content) else none) := by
  intro table
  induction table with
  | nil => intro trig name h _; exact absurd h (List.not_mem_nil _)
  | cons pr rest ih =>
    intro trig name hmem hpw
    obtain ⟨trig0, nm0⟩ := pr
    have hpw' := List.pairwise_cons.mp hpw
    rcases List.mem_cons.mp hmem with heq | hmem'
    · injection heq with e1 e2
      subst e1
      subst e2
      by_cases hc : reCount [Tok.lit (strN trig)] content > 0
      · simp [buildFailedFilters, if_pos hc, lookupA]
      · simp only [buildFailedFilters, if_neg hc]
        exact lookupA_build_none content rest name fun pair hp => (hpw'.1 pair hp).symm
    · have hne : nm0 ≠ name := hpw'.1 (trig, name) hmem'
      by_cases hc : reCount [Tok.lit (strN trig0)] content > 0
      · simp only [buildFailedFilters, if_pos hc, lookupA, if_neg hne]
        exact ih trig name hmem' hpw'.2
      · simp only [buildFailedFilters, if_neg hc]
        exact ih trig name hmem' hpw'.2

/-- Group form of the failure-filter property. -/
theorem failed_filters_group (content : List Nat) (table : List (String × String))
    (trig name : String) (hmem : (trig, name) ∈ table)
    (hpw : table.Pairwise (fun a b => a.2 ≠ b.2))
    (hne : ∀ pair ∈ table, strN pair.1 ≠ []) :
    lookupA (buildFailedFilters table content) name = filterCount trig content := by
  rw [lookupA_build content table trig name hmem hpw,
      reCount_lit (strN trig) content (hne (trig, name) hmem)]
  rfl

/-- C5.  For every failure-filter pair of every strategy extractor and every
window: the label maps to the exact number of non-overlapping occurrences of
the trigger text when that number is positive, and is absent from the
failure map when the trigger does not occur. -/
theorem failed_filters_spec : ∀ (content : List Nat) (trig name : String),
    ((trig, name) ∈ distributionFilters →
      lookupA (analyze_cycle_rider content).distribution.failed_filters name
        = filterCount trig content) ∧
    ((trig, name) ∈ squeezeFilters →
      lookupA (analyze_cycle_rider content).squeeze.failed_filters name
        = filterCount trig content) ∧
    ((trig, name) ∈ mtfFilters →
      lookupA (analyze_hour_swing content).mtf_alignment.failed_filters name
        = filterCount trig content) ∧
    ((trig, name) ∈ rsFilters →
      lookupA (analyze_hour_swing content).relative_strength.failed_filters name
        = filterCount trig content) ∧
    ((trig, name) ∈ feFilters →
      lookupA (analyze_hour_swing content).funding_extremes.failed_filters name
        = filterCount trig content) ∧
    ((trig, name) ∈ boxFilters →
      lookupA (analyze_box_range content).failed_filters name
        = filterCount trig content) := by
  intro content trig name
  refine ⟨fun h => failed_filters_group content distributionFilters trig name h
        (by decide) (by decide),
      fun h => failed_filters_group content squeezeFilters trig name h
        (by decide) (by decide),
      fun h => failed_filters_group content mtfFilters trig name h
        (by decide) (by decide),
      fun h => failed_filters_group content rsFilters trig name h
        (by decide) (by decide),
      fun h => failed_filters_group content feFilters trig name h
        (by decide) (by decide),
      fun h => failed_filters_group content boxFilters trig name h
        (by decide) (by decide)⟩

/-- Witness for C5 on a window holding one occurrence of the first
distribution trigger. -/
theorem failed_filters_witness :
    lookupA (analyze_cycle_rider
        (strN "Not in distribution (price not near POC)")).distribution.failed_filters
      "Not near POC" = some 1 := by
  have h := (failed_filters_spec (strN "Not in distribution (price not near POC)")
      "Not in distribution (price not near POC)" "Not near POC").1 (by decide)
  rw [h]
  decide

/-! ## Trading-activity rendering: claim C6 -/

/-- Lists with different 10-prefixes differ. -/
theorem take_ne_imp_ne {a b : List Nat} (h : a.take 10 ≠ b.take 10) : a ≠ b :=
  fun e => h (e ▸ rfl)

/-- Taking ten elements of an append stays inside a long left part. -/
theorem take10_append_left (c r : List Nat) (h : 10 ≤ c.length) :
    (c ++ r).take 10 = c.take 10 := by
  rw [List.take_append_eq_append_take, Nat.sub_eq_zero_of_le h, List.take_zero,
      List.append_nil]

/-- C6 (amended).  The rendered trading-activity block reports the placed,
filled, opened and closed counts of the snapshot, but no line of the block
reports the cancelled count — `orders_cancelled` is computed by
`analyze_orders` yet never rendered. -/
theorem trading_activity_spec : ∀ o : OrderStats,
    (strN "- Orders Placed: " ++ natDigits o.orders_placed) ∈ renderTradingActivity o ∧
    (strN "- Orders Filled: " ++ natDigits o.orders_filled) ∈ renderTradingActivity o ∧
    (strN "- Positions Opened: " ++ natDigits o.positions_opened)
      ∈ renderTradingActivity o ∧
    (strN "- Positions Closed: " ++ natDigits o.positions_closed)
      ∈ renderTradingActivity o ∧
    ∀ k : Nat, cancelledLine k ∉ renderTradingActivity o := by
  intro o
  have h10 : ∀ k : Nat, (cancelledLine k).take 10 = (strN "- Orders Cancelled: ").take 10 :=
    fun k => take10_append_left _ _ (by decide)
  refine ⟨by simp [renderTradingActivity], by simp [renderTradingActivity],
      by simp [renderTradingActivity], by simp [renderTradingActivity], ?_⟩
  intro k hk
  simp only [renderTradingActivity, List.mem_cons, List.not_mem_nil, or_false] at hk
  rcases hk with h | h | h | h | h | h | h
  · exact absurd h (take_ne_imp_ne (by rw [h10]; decide))
  · exact absurd h (take_ne_imp_ne (by rw [h10]; decide))
  · exact absurd h (take_ne_imp_ne
      (by rw [h10, take10_append_left _ _ (by decide)]; decide))
  · exact absurd h (take_ne_imp_ne
      (by rw [h10, take10_append_left _ _ (by decide)]; decide))
  · exact absurd h (take_ne_imp_ne
      (by rw [h10, take10_append_left _ _ (by decide)]; decide))
  · exact absurd h (take_ne_imp_ne
      (by rw [h10, take10_append_left _ _ (by decide)]; decide))
  · exact absurd h (take_ne_imp_ne (by rw [h10]; decide))

/-- Counterexample to C6 as stated: on a window with one cancelled order the
snapshot records the cancellation, yet the rendered block holds no line
reporting that count — only four of the five lifecycle events are rendered. -/
theorem trading_activity_cex :
    (analyze_orders (strN "Order cancelled: ABCUSDT")).orders_cancelled = 1 ∧
    cancelledLine ((analyze_orders (strN "Order cancelled: ABCUSDT")).orders_cancelled) ∉
      renderTradingActivity (analyze_orders (strN "Order cancelled: ABCUSDT")) := by
  decide

/-- Witness for the amended C6 at a concrete snapshot. -/
theorem trading_activity_witness :
    cancelledLine 1 ∉ renderTradingActivity (analyze_orders (strN "Order cancelled: ABCUSDT")) :=
  (trading_activity_spec (analyze_orders (strN "Order cancelled: ABCUSDT"))).2.2.2.2 1
